import Mathlib

/-!
Shallow embedding of `src/framework/sql/database.h` (otclient database
abstraction layer): the `Database` connection handle with its inert default
virtual operations, the `DBTransaction` scoped transaction guard, and the
`DBInsert` batcher.  Stateful C++ methods become explicit state-passing
functions; virtual methods that a concrete driver may override are modelled
by a `Driver` record of delegate functions, and invocations of those
delegates are counted in a `ConnState` log so that "the delegate was called
exactly once / never" is expressible.
-/

/-- Engine identifiers (Fw::DatabaseEngine); the header's default
`getDatabaseEngine` returns the `DatabaseNone` sentinel. -/
inductive Fw.DatabaseEngine
  | DatabaseNone
  | DatabaseMySQL
deriving DecidableEq

/-- Fields of class `Database`: `m_connected` and the last-use tick
`m_use` (ticks_t, modelled as `Int`). -/
structure DatabaseState where
  m_connected : Bool
  m_use : Int
deriving DecidableEq

/-- The `Database()` constructor: `m_connected(false)` (`m_use` is left
uninitialised in the source; it is 0 here). -/
def initDatabase : DatabaseState := { m_connected := false, m_use := 0 }

/-- `virtual void use() {m_use = g_clock.millis();}` with the clock value
passed explicitly. -/
def Database.use (now : Int) (s : DatabaseState) : DatabaseState :=
  { s with m_use := now }

/-- Default `virtual void connect(host, user, pass, db, port, unix_socket)`:
the body is empty, so the state is returned unchanged and no value is
returned. -/
def Database.connect (host user pass db : String) (port : Nat)
    (unix_socket : String) (s : DatabaseState) : DatabaseState :=
  s

/-- Default `virtual bool beginTransaction() {return false;}`. -/
def Database.beginTransaction (s : DatabaseState) : Bool × DatabaseState :=
  (false, s)

/-- Default `virtual bool rollback() {return false;}`. -/
def Database.rollback (s : DatabaseState) : Bool × DatabaseState :=
  (false, s)

/-- Default `virtual bool commit() {return false;}`. -/
def Database.commit (s : DatabaseState) : Bool × DatabaseState :=
  (false, s)

/-- Default `virtual bool executeQuery(const std::string&) {return false;}`. -/
def Database.executeQuery (query : String) (s : DatabaseState) :
    Bool × DatabaseState :=
  (false, s)

/-- Base result object (class DBResult); only its default accessors exist in
the header. -/
inductive DBResult
  | base
deriving DecidableEq

/-- Default `virtual DBResultPtr storeQuery(const std::string&)
{return nullptr;}`. -/
def Database.storeQuery (query : String) (s : DatabaseState) :
    Option DBResult × DatabaseState :=
  (none, s)

/-- Default `virtual std::string escapeString(const std::string&)`:
returns the two-character literal of two single quotes for every input. -/
def Database.escapeString (s : String) : String :=
  "\x27\x27"

/-- Default `virtual std::string escapeBlob(const char*, uint32)`: returns
the two-character literal of two single quotes for every input.  The byte
stream is a `List Nat`, the length a `Nat`. -/
def Database.escapeBlob (data : List Nat) (length : Nat) : String :=
  "\x27\x27"

/-- Default `virtual uint64 getLastInsertedRowID() {return 0;}`. -/
def Database.getLastInsertedRowID (s : DatabaseState) : Nat × DatabaseState :=
  (0, s)

/-- Default `virtual std::string getStringComparer() {return "= ";}`. -/
def Database.getStringComparer (s : DatabaseState) : String × DatabaseState :=
  ("= ", s)

/-- Default `virtual std::string getUpdateLimiter() {return " LIMIT 1;";}`. -/
def Database.getUpdateLimiter (s : DatabaseState) : String × DatabaseState :=
  (" LIMIT 1;", s)

/-- Default `virtual Fw::DatabaseEngine getDatabaseEngine()
{return Fw::DatabaseNone;}`. -/
def Database.getDatabaseEngine (s : DatabaseState) :
    Fw.DatabaseEngine × DatabaseState :=
  (Fw.DatabaseEngine.DatabaseNone, s)

/-- `bool isConnected() const {return m_connected;}`. -/
def Database.isConnected (s : DatabaseState) : Bool :=
  s.m_connected

/-- `void setConnected(bool connected) { m_connected = connected; }`. -/
def Database.setConnected (connected : Bool) (s : DatabaseState) :
    DatabaseState :=
  { s with m_connected := connected }

/-- A concrete driver's overrides of the virtual transaction and query
primitives: each takes the handle state and yields the result plus the
updated handle state. -/
structure Driver where
  onBegin : DatabaseState → Bool × DatabaseState
  onCommit : DatabaseState → Bool × DatabaseState
  onRollback : DatabaseState → Bool × DatabaseState
  onExecuteQuery : String → DatabaseState → Bool × DatabaseState

/-- Connection handle together with a log of how often each delegate was
invoked, so that claims of the form "rollback is issued exactly once" or
"no statement is issued" are stated as equations on the counters. -/
structure ConnState where
  db : DatabaseState
  beginCalls : Nat
  commitCalls : Nat
  rollbackCalls : Nat
  executeQueryCalls : Nat
deriving DecidableEq

/-- A connection handle in its constructed state, with no delegate calls
logged yet. -/
def conn0 : ConnState :=
  { db := initDatabase, beginCalls := 0, commitCalls := 0,
    rollbackCalls := 0, executeQueryCalls := 0 }

/-- `enum TransactionStates_t { STATE_FRESH, STATE_READY, STATE_DONE }`.
The spec names these Fresh, Active, Done. -/
inductive TransactionStates_t
  | STATE_FRESH
  | STATE_READY
  | STATE_DONE
deriving DecidableEq

/-- The guard's own field: `TransactionStates_t m_state`. -/
structure DBTransaction where
  m_state : TransactionStates_t
deriving DecidableEq

/-- The `DBTransaction` constructor: `m_state = STATE_FRESH`. -/
def freshGuard : DBTransaction :=
  { m_state := TransactionStates_t.STATE_FRESH }

/-- A guard whose state is `STATE_READY` (Active). -/
def readyGuard : DBTransaction :=
  { m_state := TransactionStates_t.STATE_READY }

/-- A guard whose state is `STATE_DONE`. -/
def doneGuard : DBTransaction :=
  { m_state := TransactionStates_t.STATE_DONE }

/-- `bool begin() { m_state = STATE_READY; return m_db->beginTransaction(); }`:
sets the state unconditionally, then delegates. -/
def DBTransaction.begin (d : Driver) (t : DBTransaction) (c : ConnState) :
    Bool × DBTransaction × ConnState :=
  let r := d.onBegin c.db
  (r.1, { m_state := TransactionStates_t.STATE_READY },
    { c with db := r.2, beginCalls := c.beginCalls + 1 })

/-- `bool commit()`: `if(m_state != STATE_READY) return false;` then
`m_state = STATE_DONE; return m_db->commit();`. -/
def DBTransaction.commit (d : Driver) (t : DBTransaction) (c : ConnState) :
    Bool × DBTransaction × ConnState :=
  if t.m_state ≠ TransactionStates_t.STATE_READY then (false, t, c)
  else
    let r := d.onCommit c.db
    (r.1, { m_state := TransactionStates_t.STATE_DONE },
      { c with db := r.2, commitCalls := c.commitCalls + 1 })

/-- `~DBTransaction() { if(m_state == STATE_READY) m_db->rollback(); }`. -/
def DBTransaction.destruct (d : Driver) (t : DBTransaction) (c : ConnState) :
    ConnState :=
  if t.m_state = TransactionStates_t.STATE_READY then
    { c with db := (d.onRollback c.db).2, rollbackCalls := c.rollbackCalls + 1 }
  else c

/-- Fields of class `DBInsert` (`m_db` is carried separately as the
`Driver`/`ConnState` pair). -/
structure DBInsert where
  m_rows : Nat
  m_query : String
  m_buf : String
deriving DecidableEq

/-- The `DBInsert` constructor: `m_rows(0)` with empty query and buffer. -/
def DBInsert.init : DBInsert :=
  { m_rows := 0, m_query := "", m_buf := "" }

/-- Modelled from the spec: the body of `DBInsert::execute` is only declared
in the header and its translation unit is not part of the sources here.  Per
the spec, `execute()` flushes any remaining buffered rows as one final
statement through the connection handle and resets the batcher, while zero
accumulated rows means no statement issuance and success is reported. -/
def DBInsert.execute (d : Driver) (ins : DBInsert) (c : ConnState) :
    Bool × DBInsert × ConnState :=
  if ins.m_rows = 0 then (true, ins, c)
  else
    let r := d.onExecuteQuery (ins.m_query ++ ins.m_buf) c.db
    (r.1, { ins with m_rows := 0, m_buf := "" },
      { c with db := r.2, executeQueryCalls := c.executeQueryCalls + 1 })

/-- The guard operations a client may invoke between construction and
destruction. -/
inductive TxOp
  | beginOp
  | commitOp
deriving DecidableEq

/-- Run a sequence of guard operations, discarding the boolean results. -/
def runOps (d : Driver) : List TxOp → DBTransaction → ConnState →
    DBTransaction × ConnState
  | [], t, c => (t, c)
  | TxOp.beginOp :: rest, t, c =>
      runOps d rest (DBTransaction.begin d t c).2.1
        (DBTransaction.begin d t c).2.2
  | TxOp.commitOp :: rest, t, c =>
      runOps d rest (DBTransaction.commit d t c).2.1
        (DBTransaction.commit d t c).2.2

/-- A driver whose commit delegate reports failure while begin and rollback
report success and leave the handle state unchanged. -/
def failCommitDriver : Driver :=
  { onBegin := fun db => (true, db)
    onCommit := fun db => (false, db)
    onRollback := fun db => (true, db)
    onExecuteQuery := fun q db => (false, db) }

/-- A driver whose delegates all report success and leave the handle state
unchanged. -/
def trueDriver : Driver :=
  { onBegin := fun db => (true, db)
    onCommit := fun db => (true, db)
    onRollback := fun db => (true, db)
    onExecuteQuery := fun q db => (true, db) }

/-- Neither branch of `commit` touches the rollback counter. -/
theorem commit_preserves_rollbackCalls (d : Driver) (t : DBTransaction)
    (c : ConnState) :
    (DBTransaction.commit d t c).2.2.rollbackCalls = c.rollbackCalls := by
  unfold DBTransaction.commit
  split <;> rfl

/-- Running guard operations never invokes the rollback delegate. -/
theorem runOps_rollbackCalls (d : Driver) (ops : List TxOp) :
    ∀ (t : DBTransaction) (c : ConnState),
      (runOps d ops t c).2.rollbackCalls = c.rollbackCalls := by
  induction ops with
  | nil => intro t c; rfl
  | cons op rest ih =>
      intro t c
      cases op with
      | beginOp =>
          simp only [runOps]
          exact ih _ _
      | commitOp =>
          simp only [runOps]
          rw [ih, commit_preserves_rollbackCalls]

/-- Without a commit, a guard already in `STATE_READY` stays there. -/
theorem runOps_keeps_ready (d : Driver) (ops : List TxOp) :
    ∀ (t : DBTransaction) (c : ConnState), TxOp.commitOp ∉ ops →
      t.m_state = TransactionStates_t.STATE_READY →
      (runOps d ops t c).1.m_state = TransactionStates_t.STATE_READY := by
  induction ops with
  | nil => intro t c _ h; exact h
  | cons op rest ih =>
      intro t c hnc h
      cases op with
      | beginOp =>
          simp only [runOps]
          exact ih _ _ (fun hm => hnc (List.mem_cons_of_mem _ hm)) rfl
      | commitOp => exact absurd (List.mem_cons_self _ _) hnc

/-- A sequence containing a begin and no commit leaves the guard in
`STATE_READY`. -/
theorem runOps_ready_of_begin (d : Driver) (ops : List TxOp)
    (t : DBTransaction) (c : ConnState) (hb : TxOp.beginOp ∈ ops)
    (hnc : TxOp.commitOp ∉ ops) :
    (runOps d ops t c).1.m_state = TransactionStates_t.STATE_READY := by
  cases ops with
  | nil => exact absurd hb (List.not_mem_nil _)
  | cons op rest =>
      cases op with
      | commitOp => exact absurd (List.mem_cons_self _ _) hnc
      | beginOp =>
          simp only [runOps]
          exact runOps_keeps_ready d rest _ _
            (fun hm => hnc (List.mem_cons_of_mem _ hm)) rfl

/-- C4: a guard on which `begin()` was called and `commit()` never was is
destroyed with exactly one `rollback()` delegated to the connection: the
final rollback counter is the initial one plus one. -/
theorem c4_rollback_exactly_once (d : Driver) (c : ConnState)
    (ops : List TxOp) (hb : TxOp.beginOp ∈ ops)
    (hnc : TxOp.commitOp ∉ ops) :
    (DBTransaction.destruct d (runOps d ops freshGuard c).1
        (runOps d ops freshGuard c).2).rollbackCalls
      = c.rollbackCalls + 1 := by
  have hst := runOps_ready_of_begin d ops freshGuard c hb hnc
  unfold DBTransaction.destruct
  rw [if_pos hst]
  show (runOps d ops freshGuard c).2.rollbackCalls + 1 = c.rollbackCalls + 1
  rw [runOps_rollbackCalls]

/-- Witness for C4 at the concrete run `[begin]` with `trueDriver`. -/
theorem c4_rollback_exactly_once_witness :
    TxOp.beginOp ∈ [TxOp.beginOp] ∧ TxOp.commitOp ∉ [TxOp.beginOp] ∧
    (DBTransaction.destruct trueDriver
        (runOps trueDriver [TxOp.beginOp] freshGuard conn0).1
        (runOps trueDriver [TxOp.beginOp] freshGuard conn0).2).rollbackCalls
      = conn0.rollbackCalls + 1 :=
  ⟨by decide, by decide,
    c4_rollback_exactly_once trueDriver conn0 [TxOp.beginOp]
      (by decide) (by decide)⟩

/-- The guard and connection after `begin()` on a fresh guard with the
failing-commit driver. -/
def afterBeginFail : DBTransaction × ConnState :=
  (DBTransaction.begin failCommitDriver freshGuard conn0).2

/-- The result of `commit()` on that active guard: the delegate fails. -/
def afterCommitFail : Bool × DBTransaction × ConnState :=
  DBTransaction.commit failCommitDriver afterBeginFail.1 afterBeginFail.2

/-- C1 counterexample: with a driver whose commit delegate returns false,
`commit()` on an Active guard returns false, yet the guard is left in
`STATE_DONE` (not Active) and destruction issues no rollback. -/
theorem c1_failed_commit_counterexample :
    afterCommitFail.1 = false ∧
    afterCommitFail.2.1.m_state = TransactionStates_t.STATE_DONE ∧
    (DBTransaction.destruct failCommitDriver afterCommitFail.2.1
        afterCommitFail.2.2).rollbackCalls = 0 := by
  decide

/-- C1 amended: `commit()` on an Active guard moves the guard to
`STATE_DONE` before delegating, so whatever the delegate returns — failure
included — a subsequent destruction finds the guard Done and issues no
rollback. -/
theorem c1_failed_commit_amended (d : Driver) (t : DBTransaction)
    (c : ConnState) (h : t.m_state = TransactionStates_t.STATE_READY) :
    (DBTransaction.commit d t c).2.1.m_state
        = TransactionStates_t.STATE_DONE ∧
    DBTransaction.destruct d (DBTransaction.commit d t c).2.1
        (DBTransaction.commit d t c).2.2
      = (DBTransaction.commit d t c).2.2 := by
  rcases t with ⟨st⟩
  cases h
  exact ⟨rfl, rfl⟩

/-- Witness for the amended C1 at an Active guard with the failing-commit
driver. -/
theorem c1_failed_commit_amended_witness :
    readyGuard.m_state = TransactionStates_t.STATE_READY ∧
    ((DBTransaction.commit failCommitDriver readyGuard conn0).2.1.m_state
        = TransactionStates_t.STATE_DONE ∧
     DBTransaction.destruct failCommitDriver
        (DBTransaction.commit failCommitDriver readyGuard conn0).2.1
        (DBTransaction.commit failCommitDriver readyGuard conn0).2.2
      = (DBTransaction.commit failCommitDriver readyGuard conn0).2.2) :=
  ⟨rfl, c1_failed_commit_amended failCommitDriver readyGuard conn0 rfl⟩

/-- C2 counterexample: the source's default `connect` leaves the handle
state unchanged at this concrete input and does not mark it connected —
there is no boolean result at all (the method returns void). -/
theorem c2_connect_counterexample :
    Database.connect "localhost" "user" "pass" "db" 3306 "" initDatabase
        = initDatabase ∧
    Database.isConnected
        (Database.connect "localhost" "user" "pass" "db" 3306 ""
          initDatabase) = false :=
  ⟨rfl, rfl⟩

/-- C2 amended: `connect` is declared returning void and its default body
is empty, so it is the identity on the handle state and never marks the
handle connected; connectedness is recorded only through `setConnected`,
which `isConnected` reads back. -/
theorem c2_connect_amended (host user pass db us : String) (port : Nat)
    (s : DatabaseState) (b : Bool) :
    Database.connect host user pass db port us s = s ∧
    Database.isConnected (Database.setConnected b s) = b :=
  ⟨rfl, rfl⟩

/-- The guard and connection after `begin()` then `commit()` with the
all-success driver: the guard has reached `STATE_DONE` from Active. -/
def afterDone : DBTransaction × ConnState :=
  (DBTransaction.commit trueDriver
    (DBTransaction.begin trueDriver freshGuard conn0).2.1
    (DBTransaction.begin trueDriver freshGuard conn0).2.2).2

/-- C3 counterexample: a guard that reached `STATE_DONE` by committing from
Active is moved back to `STATE_READY` (Active) by a later `begin()`, so a
further transition out of Done is possible. -/
theorem c3_done_begin_counterexample :
    afterDone.1.m_state = TransactionStates_t.STATE_DONE ∧
    (DBTransaction.begin trueDriver afterDone.1
        afterDone.2).2.1.m_state = TransactionStates_t.STATE_READY := by
  decide

/-- C3 amended: once Done, `commit()` indeed returns false and changes
nothing, but `begin()` is unguarded: called on a Done guard it transitions
the guard back to Active. -/
theorem c3_done_amended (d : Driver) (t : DBTransaction) (c : ConnState)
    (h : t.m_state = TransactionStates_t.STATE_DONE) :
    DBTransaction.commit d t c = (false, t, c) ∧
    (DBTransaction.begin d t c).2.1.m_state
      = TransactionStates_t.STATE_READY := by
  rcases t with ⟨st⟩
  cases h
  exact ⟨rfl, rfl⟩

/-- Witness for the amended C3 at a Done guard with the all-success
driver. -/
theorem c3_done_amended_witness :
    doneGuard.m_state = TransactionStates_t.STATE_DONE ∧
    (DBTransaction.commit trueDriver doneGuard conn0
        = (false, doneGuard, conn0) ∧
     (DBTransaction.begin trueDriver doneGuard conn0).2.1.m_state
        = TransactionStates_t.STATE_READY) :=
  ⟨rfl, c3_done_amended trueDriver doneGuard conn0 rfl⟩

/-- C5: `begin()` always leaves the guard in `STATE_READY` (Active),
whatever the delegate `beginTransaction` returns, and its own return value
is exactly the delegate's result. -/
theorem c5_begin_always_active (d : Driver) (t : DBTransaction)
    (c : ConnState) :
    (DBTransaction.begin d t c).2.1.m_state
        = TransactionStates_t.STATE_READY ∧
    (DBTransaction.begin d t c).1 = (d.onBegin c.db).1 :=
  ⟨rfl, rfl⟩

/-- C6: `commit()` on a guard in `STATE_FRESH` or `STATE_DONE` returns
false and changes nothing: neither the guard, nor the handle state, nor any
delegate-call counter. -/
theorem c6_commit_noop_fresh_done (d : Driver) (t : DBTransaction)
    (c : ConnState)
    (h : t.m_state = TransactionStates_t.STATE_FRESH ∨
         t.m_state = TransactionStates_t.STATE_DONE) :
    DBTransaction.commit d t c = (false, t, c) := by
  rcases t with ⟨st⟩
  rcases h with h | h <;> cases h <;> rfl

/-- Witness for C6 at a fresh guard with the all-success driver. -/
theorem c6_commit_noop_fresh_done_witness :
    (freshGuard.m_state = TransactionStates_t.STATE_FRESH ∨
     freshGuard.m_state = TransactionStates_t.STATE_DONE) ∧
    DBTransaction.commit trueDriver freshGuard conn0
      = (false, freshGuard, conn0) :=
  ⟨Or.inl rfl,
    c6_commit_noop_fresh_done trueDriver freshGuard conn0 (Or.inl rfl)⟩

/-- C7: `execute()` on a batcher with zero accumulated rows reports success
and performs nothing: the batcher, the handle state and every delegate-call
counter are unchanged, so no statement was issued. -/
theorem c7_execute_zero_rows (d : Driver) (ins : DBInsert) (c : ConnState)
    (h : ins.m_rows = 0) :
    DBInsert.execute d ins c = (true, ins, c) := by
  unfold DBInsert.execute
  rw [if_pos h]

/-- Witness for C7 at a freshly constructed batcher. -/
theorem c7_execute_zero_rows_witness :
    DBInsert.init.m_rows = 0 ∧
    DBInsert.execute trueDriver DBInsert.init conn0
      = (true, DBInsert.init, conn0) :=
  ⟨rfl, c7_execute_zero_rows trueDriver DBInsert.init conn0 rfl⟩

/-- C8: the default driver operations are inert: `executeQuery` returns
false, `storeQuery` returns null, `getLastInsertedRowID` returns 0,
`getDatabaseEngine` returns the None sentinel, and each returns the handle
state unchanged. -/
theorem c8_defaults_inert (q : String) (s : DatabaseState) :
    Database.executeQuery q s = (false, s) ∧
    Database.storeQuery q s = (none, s) ∧
    Database.getLastInsertedRowID s = (0, s) ∧
    Database.getDatabaseEngine s = (Fw.DatabaseEngine.DatabaseNone, s) :=
  ⟨rfl, rfl, rfl, rfl⟩

/-- C10: the default `escapeString` and `escapeBlob` return the constant
two-single-quote literal for every input, so their output is the same for
any two inputs and no part of the input reaches the produced literal. -/
theorem c10_escape_constant (s t : String) (data : List Nat) (length : Nat)
    (data2 : List Nat) (length2 : Nat) :
    Database.escapeString s = "\x27\x27" ∧
    Database.escapeBlob data length = "\x27\x27" ∧
    Database.escapeString s = Database.escapeString t ∧
    Database.escapeBlob data length = Database.escapeBlob data2 length2 :=
  ⟨rfl, rfl, rfl, rfl⟩
